import Mathlib

/-! soltransfer: a shallow embedding of `main.go`

The program loads one transfer request from `config.yaml`, validates the amount,
checks the sender's balance on a remote node, builds and signs a one-instruction
transfer transaction, submits it and prints the resulting signature.

Modelling choices.

* A Go `error` is modelled by its message (`String`); a returned `error` value is
  `Option String` with `none` for `nil`; a `(T, error)` result is `Except String T`.
* `uint64` values (amount, balance) are natural numbers. The program only compares
  and prints them, so no arithmetic can wrap; every theorem below is stated for all
  naturals and therefore covers every 64-bit value.
* The solana-go client library and the remote node are not part of the repository.
  The library is a record `Lib` of functions, the node a record `Node` of responses.
* Effects are made explicit by a `World` that is threaded through the code: the
  ordered list of steps performed and the lines written to standard output.
-/

namespace SolTransfer

/-! ## Data model -/

/-- The anonymous struct behind `Config.TransferConfig` (main.go, lines 16 to 21). -/
structure TransferConfigFields where
  RPCURL : String
  PrivateKey : String
  RecipientPK : String
  Amount : Nat
deriving DecidableEq, Repr

/-- The type `Config` of main.go. -/
structure Config where
  TransferConfig : TransferConfigFields
deriving DecidableEq, Repr

/-- The library type `solana.PublicKey`, a byte array. -/
structure PublicKey where
  bytes : List Nat
deriving DecidableEq, Repr

/-- The library type `solana.PrivateKey`, a byte slice. -/
structure PrivateKey where
  bytes : List Nat
deriving DecidableEq, Repr

/-- The library type `solana.Hash`, a block reference. -/
structure Hash where
  bytes : List Nat
deriving DecidableEq, Repr

/-- The library type `solana.Signature`. -/
structure Signature where
  bytes : List Nat
deriving DecidableEq, Repr

/-- The library method `PublicKey.Equals`: equality of the key bytes. -/
def PublicKey.Equals (p pb : PublicKey) : Bool := decide (p = pb)

/-- The commitment level passed to the remote queries (`rpc.CommitmentType`). -/
inductive Commitment where
  | processed
  | confirmed
  | finalized
deriving DecidableEq, Repr

/-- The instructions a transaction may carry. `transfer lamports src dst` is what
`system.NewTransferInstruction(lamports, src, dst).Build()` produces; `generic`
stands for every other instruction of the library. -/
inductive Instruction where
  | transfer (lamports : Nat) (fundingAccount : PublicKey) (recipientAccount : PublicKey)
  | generic (programID : PublicKey) (accounts : List PublicKey) (data : List Nat)
deriving DecidableEq, Repr

/-- The content of a `solana.Transaction`: the instructions it was built from, the
block reference, the fee payer and the signatures attached so far. -/
structure Transaction where
  Instructions : List Instruction
  RecentBlockhash : Hash
  FeePayer : PublicKey
  Signatures : List Signature
deriving DecidableEq, Repr

/-- The functions of the solana-go library that main.go calls. They are parameters of
the model: nothing is assumed about them beyond their types. -/
structure Lib where
  /-- The method `PrivateKey.PublicKey()`. -/
  PublicKeyOf : PrivateKey → PublicKey
  /-- The function `solana.PrivateKeyFromBase58`. -/
  PrivateKeyFromBase58 : String → Except String PrivateKey
  /-- The function `solana.PublicKeyFromBase58`. -/
  PublicKeyFromBase58 : String → Except String PublicKey
  /-- The failure, if any, of `solana.NewTransaction` on the given arguments. -/
  NewTransactionErr : List Instruction → Hash → PublicKey → Option String
  /-- The signatures produced by `Transaction.Sign` with the given key resolver, or its failure. -/
  SignWith : Transaction → (PublicKey → Option PrivateKey) → Except String (List Signature)
  /-- The method `Signature.String()` used by `fmt.Println`. -/
  SignatureString : Signature → String

/-- The responses of the remote node reached through `rpc.Client`. -/
structure Node where
  GetBalance : PublicKey → Commitment → Except String Nat
  GetRecentBlockhash : Commitment → Except String Hash
  SendTransaction : Transaction → Except String Signature

/-- The steps the program performs, in the order they are recorded in the `World`. -/
inductive Step where
  | openConfig
  | decodeConfig
  | newClient (url : String)
  | parsePrivateKey (text : String)
  | parsePublicKey (text : String)
  | validateConfig
  | getBalance (account : PublicKey) (commitment : Commitment)
  | getRecentBlockhash (commitment : Commitment)
  | newTransaction (instructions : List Instruction) (blockhash : Hash) (payer : PublicKey)
  | sign (tx : Transaction)
  | sendTransaction (tx : Transaction)
deriving DecidableEq, Repr

/-- The observable effects of a run: steps performed and lines printed on standard output. -/
structure World where
  steps : List Step
  stdout : List String
deriving DecidableEq, Repr

/-- The steps performed between the world `before` and the later world `after`. -/
def World.stepsSince (after before : World) : List Step :=
  after.steps.drop before.steps.length

/-- The lines printed between the world `before` and the later world `after`. -/
def World.printedSince (after before : World) : List String :=
  after.stdout.drop before.stdout.length

/-- The world before anything has happened. -/
def World.empty : World := ⟨[], []⟩

/-- Record that a step is performed. -/
def World.call (w : World) (s : Step) : World :=
  { w with steps := w.steps ++ [s] }

/-- The effect of `fmt.Println` with the given rendered line. -/
def World.println (w : World) (line : String) : World :=
  { w with stdout := w.stdout ++ [line] }

/-- The three remote calls of the program. -/
inductive Remote where
  | balanceQuery
  | finalityFetch
  | submit
deriving DecidableEq, Repr

/-- The remote call a step makes, if it makes one. -/
def Step.remote : Step → Option Remote
  | .getBalance _ _ => some .balanceQuery
  | .getRecentBlockhash _ => some .finalityFetch
  | .sendTransaction _ => some .submit
  | _ => none

/-- The remote calls among a list of steps, in order. -/
def remoteCalls (steps : List Step) : List Remote :=
  steps.filterMap Step.remote

/-! ## The library calls made by `transferTokens` -/

/-- The call `solana.NewTransaction(instructions, blockhash, solana.TransactionPayer(payer))`:
it fails when the library says so and otherwise yields an unsigned transaction with the
content it was given. -/
def NewTransaction (lib : Lib) (instructions : List Instruction) (blockhash : Hash)
    (payer : PublicKey) : Except String Transaction :=
  match lib.NewTransactionErr instructions blockhash payer with
  | some err => .error err
  | none => .ok ⟨instructions, blockhash, payer, []⟩

/-- The call `tx.Sign(getter)`: on success the transaction carries the signatures the
library produced and is otherwise unchanged. -/
def Transaction.Sign (lib : Lib) (tx : Transaction) (getter : PublicKey → Option PrivateKey) :
    Except String Transaction :=
  match lib.SignWith tx getter with
  | .error err => .error err
  | .ok sigs => .ok { tx with Signatures := sigs }

/-! ## The functions of main.go -/

/-- The function `validateConfig` (main.go, lines 55 to 60). -/
def validateConfig (config : Config) : Option String :=
  if config.TransferConfig.Amount ≤ 0 then
    some "amount must be greater than zero"
  else
    none

/-- The function `getAccountBalance` (main.go, lines 114 to 120). -/
def getAccountBalance (node : Node) (account : PublicKey) (w : World) :
    Except String Nat × World :=
  let w1 := w.call (.getBalance account .finalized)
  match node.GetBalance account .finalized with
  | .error err => (.error ("failed to get account balance: " ++ err), w1)
  | .ok balanceResult => (.ok balanceResult, w1)

/-- The closure `signer` built in `transferTokens` (main.go, lines 92 to 97). -/
def signer (lib : Lib) (accountFrom : PrivateKey) (key : PublicKey) : Option PrivateKey :=
  if (lib.PublicKeyOf accountFrom).Equals key then
    some accountFrom
  else
    none

/-- The function `transferTokens` (main.go, lines 62 to 112). The result is the returned
`error` together with the world after the call. -/
def transferTokens (lib : Lib) (node : Node) (accountFrom : PrivateKey) (accountTo : PublicKey)
    (amount : Nat) (w : World) : Option String × World :=
  match getAccountBalance node (lib.PublicKeyOf accountFrom) w with
  | (.error err, w1) => (some ("failed to get account balance: " ++ err), w1)
  | (.ok balance, w1) =>
    if balance < amount then
      (some ("insufficient balance. Account balance: " ++ toString balance ++
        ", Required amount: " ++ toString amount), w1)
    else
      let w2 := w1.call (.getRecentBlockhash .finalized)
      match node.GetRecentBlockhash .finalized with
      | .error err => (some ("failed to get recent blockhash: " ++ err), w2)
      | .ok recentBlockhash =>
        let instructions :=
          [Instruction.transfer amount (lib.PublicKeyOf accountFrom) accountTo]
        let w3 := w2.call
          (.newTransaction instructions recentBlockhash (lib.PublicKeyOf accountFrom))
        match NewTransaction lib instructions recentBlockhash (lib.PublicKeyOf accountFrom) with
        | .error err => (some ("failed to create transaction: " ++ err), w3)
        | .ok tx =>
          let w4 := w3.call (.sign tx)
          match tx.Sign lib (signer lib accountFrom) with
          | .error err => (some ("unable to sign transaction: " ++ err), w4)
          | .ok signed =>
            let w5 := w4.call (.sendTransaction signed)
            match node.SendTransaction signed with
            | .error err => (some ("failed to send transaction: " ++ err), w5)
            | .ok sig =>
              (none, w5.println ("Transaction Signature: " ++ lib.SignatureString sig))

/-- How the process ends. `fatal` is `log.Fatalf` (the formatted message, without the
time stamp the logger puts in front, goes to standard error and the exit status is 1);
`panic` is a Go panic raised by one of the `Must...` helpers. -/
inductive Exit where
  | success
  | fatal (msg : String)
  | panic (msg : String)
deriving DecidableEq, Repr

/-- The file system as seen by `main`: the outcome of `os.Open("config.yaml")` and of
decoding the opened file as YAML. -/
structure Files where
  OpenErr : Option String
  Decode : Except String Config

/-- The function `main` (main.go, lines 24 to 53). `net url` is the node reached by the
client that `rpc.New(url)` creates. -/
def main (files : Files) (lib : Lib) (net : String → Node) : Exit × World :=
  let w0 := World.empty.call .openConfig
  match files.OpenErr with
  | some err => (.fatal ("failed to open config file: " ++ err), w0)
  | none =>
    let w1 := w0.call .decodeConfig
    match files.Decode with
    | .error err => (.fatal ("failed to decode config file: " ++ err), w1)
    | .ok config =>
      let w2 := w1.call (.newClient config.TransferConfig.RPCURL)
      let rpcClient := net config.TransferConfig.RPCURL
      let w3 := w2.call (.parsePrivateKey config.TransferConfig.PrivateKey)
      match lib.PrivateKeyFromBase58 config.TransferConfig.PrivateKey with
      | .error err => (.panic err, w3)
      | .ok accountFrom =>
        let w4 := w3.call (.parsePublicKey config.TransferConfig.RecipientPK)
        match lib.PublicKeyFromBase58 config.TransferConfig.RecipientPK with
        | .error err => (.panic err, w4)
        | .ok accountTo =>
          let w5 := w4.call .validateConfig
          match validateConfig config with
          | some err => (.fatal ("invalid configuration: " ++ err), w5)
          | none =>
            match transferTokens lib rpcClient accountFrom accountTo
                config.TransferConfig.Amount w5 with
            | (some err, w6) => (.fatal ("failed to transfer tokens: " ++ err), w6)
            | (none, w6) => (.success, w6.println "Transaction successful")

/-- The remote calls made by one call of `transferTokens` started in the world `w`. -/
def transferCalls (lib : Lib) (node : Node) (accountFrom : PrivateKey) (accountTo : PublicKey)
    (amount : Nat) (w : World) : List Remote :=
  remoteCalls ((transferTokens lib node accountFrom accountTo amount w).2.stepsSince w)

/-- The steps of `transferTokens` that can fail with an underlying error. -/
inductive FailingStep where
  | balanceQuery
  | finalityFetch
  | build
  | signing
  | submission
deriving DecidableEq, Repr

/-- The context found in front of the underlying error when the given step fails, to be
compared with the messages `transferTokens` builds. The balance query is wrapped twice,
once by `getAccountBalance` and once by `transferTokens`. -/
def stepContext : FailingStep → String
  | .balanceQuery => "failed to get account balance: failed to get account balance: "
  | .finalityFetch => "failed to get recent blockhash: "
  | .build => "failed to create transaction: "
  | .signing => "unable to sign transaction: "
  | .submission => "failed to send transaction: "

/-! ## Sample inputs used to exercise the theorems -/

/-- A sample library: the public key of a private key is its byte list, key texts
decode to their character codes unless empty, building never fails, signing asks the
resolver for the fee payer's key, signatures print as `sig` followed by their length. -/
def sampleLib : Lib where
  PublicKeyOf := fun sk => ⟨sk.bytes⟩
  PrivateKeyFromBase58 := fun s =>
    if s = "" then .error "zero length string" else .ok ⟨s.toList.map Char.toNat⟩
  PublicKeyFromBase58 := fun s =>
    if s = "" then .error "zero length string" else .ok ⟨s.toList.map Char.toNat⟩
  NewTransactionErr := fun _ _ _ => none
  SignWith := fun tx getter =>
    match getter tx.FeePayer with
    | none => .error "signer key not found"
    | some sk => .ok [⟨sk.bytes⟩]
  SignatureString := fun s => "sig" ++ toString s.bytes.length

/-- A sample node that reports the given balance and accepts every transaction. -/
def sampleNode (balance : Nat) : Node where
  GetBalance := fun _ _ => .ok balance
  GetRecentBlockhash := fun _ => .ok ⟨[7]⟩
  SendTransaction := fun tx => .ok ⟨tx.RecentBlockhash.bytes ++ [1]⟩

/-- A sample node whose balance query fails. -/
def downNode : Node where
  GetBalance := fun _ _ => .error "connection refused"
  GetRecentBlockhash := fun _ => .ok ⟨[7]⟩
  SendTransaction := fun tx => .ok ⟨tx.RecentBlockhash.bytes ++ [1]⟩

/-- A sample sender key. -/
def sampleFrom : PrivateKey := ⟨[1, 2]⟩

/-- A sample recipient address. -/
def sampleTo : PublicKey := ⟨[3, 4]⟩

/-- The sample configuration: amount 1000, both keys well formed. -/
def sampleConfig : Config := ⟨⟨"http://node", "k", "abc", 1000⟩⟩

/-- A configuration with amount 0 and well formed keys. -/
def zeroConfig : Config := ⟨⟨"http://node", "k", "abc", 0⟩⟩

/-- A configuration with amount 0 whose private key does not decode. -/
def zeroConfigBadKey : Config := ⟨⟨"http://node", "", "abc", 0⟩⟩

/-! ## Auxiliary facts -/

theorem drop_length_append {α : Type} (l₁ l₂ : List α) : (l₁ ++ l₂).drop l₁.length = l₂ := by
  simp

theorem stepsSince_append (w : World) (new : List Step) (out : List String) :
    World.stepsSince ⟨w.steps ++ new, out⟩ w = new := by
  simp [World.stepsSince]

theorem printedSince_append (w : World) (steps : List Step) (new : List String) :
    World.printedSince ⟨steps, w.stdout ++ new⟩ w = new := by
  simp [World.printedSince]

theorem printedSince_same (w : World) (steps : List Step) :
    World.printedSince ⟨steps, w.stdout⟩ w = [] := by
  simp [World.printedSince]

/-- The run of `transferTokens` is one of seven: the balance query fails, the balance is
too low, the finality fetch fails, the build fails, the signing fails, the submission
fails, or everything succeeds. Each case fixes the returned error and the final world. -/
theorem transferTokens_cases (lib : Lib) (node : Node) (accountFrom : PrivateKey)
    (accountTo : PublicKey) (amount : Nat) (w : World) :
    (∃ e, node.GetBalance (lib.PublicKeyOf accountFrom) .finalized = .error e ∧
      transferTokens lib node accountFrom accountTo amount w =
        (some ("failed to get account balance: " ++ ("failed to get account balance: " ++ e)),
          ⟨w.steps ++ [Step.getBalance (lib.PublicKeyOf accountFrom) .finalized], w.stdout⟩)) ∨
    (∃ b, node.GetBalance (lib.PublicKeyOf accountFrom) .finalized = .ok b ∧ b < amount ∧
      transferTokens lib node accountFrom accountTo amount w =
        (some ("insufficient balance. Account balance: " ++ toString b ++
            ", Required amount: " ++ toString amount),
          ⟨w.steps ++ [Step.getBalance (lib.PublicKeyOf accountFrom) .finalized], w.stdout⟩)) ∨
    (∃ b e, node.GetBalance (lib.PublicKeyOf accountFrom) .finalized = .ok b ∧ amount ≤ b ∧
      node.GetRecentBlockhash .finalized = .error e ∧
      transferTokens lib node accountFrom accountTo amount w =
        (some ("failed to get recent blockhash: " ++ e),
          ⟨w.steps ++ [Step.getBalance (lib.PublicKeyOf accountFrom) .finalized,
            Step.getRecentBlockhash .finalized], w.stdout⟩)) ∨
    (∃ b h e, node.GetBalance (lib.PublicKeyOf accountFrom) .finalized = .ok b ∧ amount ≤ b ∧
      node.GetRecentBlockhash .finalized = .ok h ∧
      NewTransaction lib [Instruction.transfer amount (lib.PublicKeyOf accountFrom) accountTo]
        h (lib.PublicKeyOf accountFrom) = .error e ∧
      transferTokens lib node accountFrom accountTo amount w =
        (some ("failed to create transaction: " ++ e),
          ⟨w.steps ++ [Step.getBalance (lib.PublicKeyOf accountFrom) .finalized,
            Step.getRecentBlockhash .finalized,
            Step.newTransaction
              [Instruction.transfer amount (lib.PublicKeyOf accountFrom) accountTo] h
              (lib.PublicKeyOf accountFrom)], w.stdout⟩)) ∨
    (∃ b h tx e, node.GetBalance (lib.PublicKeyOf accountFrom) .finalized = .ok b ∧
      amount ≤ b ∧ node.GetRecentBlockhash .finalized = .ok h ∧
      NewTransaction lib [Instruction.transfer amount (lib.PublicKeyOf accountFrom) accountTo]
        h (lib.PublicKeyOf accountFrom) = .ok tx ∧
      tx.Sign lib (signer lib accountFrom) = .error e ∧
      transferTokens lib node accountFrom accountTo amount w =
        (some ("unable to sign transaction: " ++ e),
          ⟨w.steps ++ [Step.getBalance (lib.PublicKeyOf accountFrom) .finalized,
            Step.getRecentBlockhash .finalized,
            Step.newTransaction
              [Instruction.transfer amount (lib.PublicKeyOf accountFrom) accountTo] h
              (lib.PublicKeyOf accountFrom),
            Step.sign tx], w.stdout⟩)) ∨
    (∃ b h tx signed e, node.GetBalance (lib.PublicKeyOf accountFrom) .finalized = .ok b ∧
      amount ≤ b ∧ node.GetRecentBlockhash .finalized = .ok h ∧
      NewTransaction lib [Instruction.transfer amount (lib.PublicKeyOf accountFrom) accountTo]
        h (lib.PublicKeyOf accountFrom) = .ok tx ∧
      tx.Sign lib (signer lib accountFrom) = .ok signed ∧
      node.SendTransaction signed = .error e ∧
      transferTokens lib node accountFrom accountTo amount w =
        (some ("failed to send transaction: " ++ e),
          ⟨w.steps ++ [Step.getBalance (lib.PublicKeyOf accountFrom) .finalized,
            Step.getRecentBlockhash .finalized,
            Step.newTransaction
              [Instruction.transfer amount (lib.PublicKeyOf accountFrom) accountTo] h
              (lib.PublicKeyOf accountFrom),
            Step.sign tx, Step.sendTransaction signed], w.stdout⟩)) ∨
    (∃ b h tx signed sig, node.GetBalance (lib.PublicKeyOf accountFrom) .finalized = .ok b ∧
      amount ≤ b ∧ node.GetRecentBlockhash .finalized = .ok h ∧
      NewTransaction lib [Instruction.transfer amount (lib.PublicKeyOf accountFrom) accountTo]
        h (lib.PublicKeyOf accountFrom) = .ok tx ∧
      tx.Sign lib (signer lib accountFrom) = .ok signed ∧
      node.SendTransaction signed = .ok sig ∧
      transferTokens lib node accountFrom accountTo amount w =
        (none,
          ⟨w.steps ++ [Step.getBalance (lib.PublicKeyOf accountFrom) .finalized,
            Step.getRecentBlockhash .finalized,
            Step.newTransaction
              [Instruction.transfer amount (lib.PublicKeyOf accountFrom) accountTo] h
              (lib.PublicKeyOf accountFrom),
            Step.sign tx, Step.sendTransaction signed],
           w.stdout ++ ["Transaction Signature: " ++ lib.SignatureString sig]⟩)) := by
  cases hb : node.GetBalance (lib.PublicKeyOf accountFrom) .finalized with
  | error e =>
    simp [transferTokens, getAccountBalance, hb, World.call]
  | ok b =>
    by_cases hlt : b < amount
    · simp [transferTokens, getAccountBalance, hb, hlt, World.call]
    · have hle : amount ≤ b := by omega
      cases hh : node.GetRecentBlockhash .finalized with
      | error e =>
        simp [transferTokens, getAccountBalance, hb, hlt, hle, hh, World.call]
      | ok h =>
        cases hn : NewTransaction lib
            [Instruction.transfer amount (lib.PublicKeyOf accountFrom) accountTo] h
            (lib.PublicKeyOf accountFrom) with
        | error e =>
          simp [transferTokens, getAccountBalance, hb, hlt, hle, hh, hn, World.call]
        | ok tx =>
          cases hs : tx.Sign lib (signer lib accountFrom) with
          | error e =>
            simp [transferTokens, getAccountBalance, hb, hlt, hle, hh, hn, hs, World.call]
          | ok signed =>
            cases hsend : node.SendTransaction signed with
            | error e =>
              simp [transferTokens, getAccountBalance, hb, hlt, hle, hh, hn, hs, hsend,
                World.call]
            | ok sig =>
              simp [transferTokens, getAccountBalance, hb, hlt, hle, hh, hn, hs, hsend,
                World.call, World.println]

theorem append_ne_of_take_ne (p q e e' : String) (n : Nat) (hp : n ≤ p.data.length)
    (hq : n ≤ q.data.length) (h : p.data.take n ≠ q.data.take n) : p ++ e ≠ q ++ e' := by
  intro heq
  apply h
  have h2 := congrArg (fun s : String => s.data.take n) heq
  simpa [String.data_append, List.take_append_of_le_length hp,
    List.take_append_of_le_length hq] using h2

theorem balance_context_twice (e : String) :
    "failed to get account balance: " ++ ("failed to get account balance: " ++ e) =
      stepContext .balanceQuery ++ e := by
  rw [← String.append_assoc]
  rfl

/-! ## C1: the validator -/

/-- C1: `validateConfig` fails exactly when the amount is not greater than zero. For every
configuration, whatever its other fields, it returns the error
"amount must be greater than zero" if and only if `Amount ≤ 0`, which for the unsigned
amount means `Amount = 0`, and returns `nil` if and only if `Amount > 0`. -/
theorem validateConfig_fails_iff (config : Config) :
    (validateConfig config = some "amount must be greater than zero" ↔
        config.TransferConfig.Amount ≤ 0) ∧
    (validateConfig config = some "amount must be greater than zero" ↔
        config.TransferConfig.Amount = 0) ∧
    (validateConfig config = none ↔ 0 < config.TransferConfig.Amount) := by
  unfold validateConfig
  by_cases h : config.TransferConfig.Amount ≤ 0
  · simp [h]
    omega
  · simp [h]
    omega

/-! ## C2: insufficient balance -/

/-- C2: for every amount greater than zero and every balance below it that the remote
balance query returns, `transferTokens` fails with the insufficient-balance error whose
message carries that balance and that amount, the balance query is the only step (hence
the only remote call) it performs, and nothing is printed. -/
theorem transferTokens_insufficient_balance (lib : Lib) (node : Node)
    (accountFrom : PrivateKey) (accountTo : PublicKey) (amount balance : Nat) (w : World)
    (_hpos : 0 < amount)
    (hbal : node.GetBalance (lib.PublicKeyOf accountFrom) .finalized = .ok balance)
    (hlt : balance < amount) :
    (transferTokens lib node accountFrom accountTo amount w).1 =
        some ("insufficient balance. Account balance: " ++ toString balance ++
          ", Required amount: " ++ toString amount) ∧
    (transferTokens lib node accountFrom accountTo amount w).2.stepsSince w =
        [Step.getBalance (lib.PublicKeyOf accountFrom) .finalized] ∧
    remoteCalls ((transferTokens lib node accountFrom accountTo amount w).2.stepsSince w) =
        [Remote.balanceQuery] ∧
    (transferTokens lib node accountFrom accountTo amount w).2.printedSince w = [] := by
  simp [transferTokens, getAccountBalance, hbal, hlt, World.call, World.stepsSince,
    World.printedSince, remoteCalls, Step.remote]

/-- C2 at amount 5000 and balance 1000: the message reads
"insufficient balance. Account balance: 1000, Required amount: 5000". -/
theorem transferTokens_insufficient_balance_witness :
    (transferTokens sampleLib (sampleNode 1000) sampleFrom sampleTo 5000 World.empty).1 =
        some "insufficient balance. Account balance: 1000, Required amount: 5000" ∧
    remoteCalls ((transferTokens sampleLib (sampleNode 1000) sampleFrom sampleTo 5000
        World.empty).2.stepsSince World.empty) = [Remote.balanceQuery] := by
  have h := transferTokens_insufficient_balance sampleLib (sampleNode 1000) sampleFrom
    sampleTo 5000 1000 World.empty (by decide) rfl (by decide)
  exact ⟨h.1.trans (by decide), h.2.2.1⟩

/-! ## C3: the successful path -/

/-- C3 as stated fails: on a successful run the only value `transferTokens` returns is the
`nil` error, not the identifier. With amount 1000 and balance 5000 every step succeeds,
the node returns the identifier printed as "sig2", and the returned value is `none`. -/
theorem transferTokens_returns_identifier_counterexample :
    (sampleNode 5000).SendTransaction
        ⟨[Instruction.transfer 1000 ⟨[1, 2]⟩ sampleTo], ⟨[7]⟩, ⟨[1, 2]⟩, [⟨[1, 2]⟩]⟩ =
      .ok ⟨[7, 1]⟩ ∧
    sampleLib.SignatureString ⟨[7, 1]⟩ = "sig2" ∧
    (transferTokens sampleLib (sampleNode 5000) sampleFrom sampleTo 1000 World.empty).2.steps.getLast? =
      some (Step.sendTransaction
        ⟨[Instruction.transfer 1000 ⟨[1, 2]⟩ sampleTo], ⟨[7]⟩, ⟨[1, 2]⟩, [⟨[1, 2]⟩]⟩) ∧
    (transferTokens sampleLib (sampleNode 5000) sampleFrom sampleTo 1000 World.empty).1 ≠
      some "sig2" ∧
    (transferTokens sampleLib (sampleNode 5000) sampleFrom sampleTo 1000 World.empty).1 =
      none := by
  refine ⟨rfl, ?_, ?_, ?_, ?_⟩ <;> decide

/-- C3, amended: for every amount and every balance not below it (equality included), when
the blockhash fetch, the build, the signing and the submission all succeed,
`transferTokens` performs exactly the steps balance query, finality fetch, build, sign,
submit in that order, returns `nil`, and prints the single line "Transaction Signature: "
followed by the identifier that the submission returned, unchanged. -/
theorem transferTokens_success (lib : Lib) (node : Node) (accountFrom : PrivateKey)
    (accountTo : PublicKey) (amount balance : Nat) (w : World) (blockhash : Hash)
    (sigs : List Signature) (sig : Signature)
    (_hpos : 0 < amount)
    (hbal : node.GetBalance (lib.PublicKeyOf accountFrom) .finalized = .ok balance)
    (hge : amount ≤ balance)
    (hhash : node.GetRecentBlockhash .finalized = .ok blockhash)
    (hbuild : lib.NewTransactionErr
        [Instruction.transfer amount (lib.PublicKeyOf accountFrom) accountTo] blockhash
        (lib.PublicKeyOf accountFrom) = none)
    (hsign : lib.SignWith
        ⟨[Instruction.transfer amount (lib.PublicKeyOf accountFrom) accountTo], blockhash,
          lib.PublicKeyOf accountFrom, []⟩ (signer lib accountFrom) = .ok sigs)
    (hsend : node.SendTransaction
        ⟨[Instruction.transfer amount (lib.PublicKeyOf accountFrom) accountTo], blockhash,
          lib.PublicKeyOf accountFrom, sigs⟩ = .ok sig) :
    (transferTokens lib node accountFrom accountTo amount w).1 = none ∧
    (transferTokens lib node accountFrom accountTo amount w).2.stepsSince w =
      [Step.getBalance (lib.PublicKeyOf accountFrom) .finalized,
       Step.getRecentBlockhash .finalized,
       Step.newTransaction
         [Instruction.transfer amount (lib.PublicKeyOf accountFrom) accountTo] blockhash
         (lib.PublicKeyOf accountFrom),
       Step.sign
         ⟨[Instruction.transfer amount (lib.PublicKeyOf accountFrom) accountTo], blockhash,
           lib.PublicKeyOf accountFrom, []⟩,
       Step.sendTransaction
         ⟨[Instruction.transfer amount (lib.PublicKeyOf accountFrom) accountTo], blockhash,
           lib.PublicKeyOf accountFrom, sigs⟩] ∧
    remoteCalls ((transferTokens lib node accountFrom accountTo amount w).2.stepsSince w) =
      [Remote.balanceQuery, Remote.finalityFetch, Remote.submit] ∧
    (transferTokens lib node accountFrom accountTo amount w).2.printedSince w =
      ["Transaction Signature: " ++ lib.SignatureString sig] := by
  have hnlt : ¬ balance < amount := by omega
  simp [transferTokens, getAccountBalance, hbal, hnlt, hhash, NewTransaction, hbuild,
    Transaction.Sign, hsign, hsend, World.call, World.println, World.stepsSince,
    World.printedSince, remoteCalls, Step.remote]

/-- C3 amended, at amount 1000 and balance 1000 (the boundary): the call returns `nil`,
makes the three remote calls in order and prints "Transaction Signature: sig2". -/
theorem transferTokens_success_witness :
    (transferTokens sampleLib (sampleNode 1000) sampleFrom sampleTo 1000 World.empty).1 = none ∧
    remoteCalls ((transferTokens sampleLib (sampleNode 1000) sampleFrom sampleTo 1000
        World.empty).2.stepsSince World.empty) =
      [Remote.balanceQuery, Remote.finalityFetch, Remote.submit] ∧
    (transferTokens sampleLib (sampleNode 1000) sampleFrom sampleTo 1000
        World.empty).2.printedSince World.empty = ["Transaction Signature: sig2"] := by
  have h := transferTokens_success sampleLib (sampleNode 1000) sampleFrom sampleTo 1000 1000
    World.empty ⟨[7]⟩ [⟨[1, 2]⟩] ⟨[7, 1]⟩ (by decide) rfl (by decide) rfl rfl rfl rfl
  exact ⟨h.1, h.2.2.1, h.2.2.2.trans (by decide)⟩

/-! ## C4: the submitted transaction -/

/-- C4: whenever `transferTokens` reaches submission, the transaction it submits contains
exactly one instruction, that instruction is a transfer of exactly the requested amount
from the sender's public key to the recipient, the fee payer is the sender's public key,
and the block reference is the blockhash that the finality fetch returned; these are also
the arguments of the build step recorded in the same call. -/
theorem transferTokens_submitted_transaction (lib : Lib) (node : Node)
    (accountFrom : PrivateKey) (accountTo : PublicKey) (amount : Nat) (w : World)
    (tx : Transaction)
    (hsub : Step.sendTransaction tx ∈
      (transferTokens lib node accountFrom accountTo amount w).2.stepsSince w) :
    tx.Instructions.length = 1 ∧
    tx.Instructions =
      [Instruction.transfer amount (lib.PublicKeyOf accountFrom) accountTo] ∧
    tx.FeePayer = lib.PublicKeyOf accountFrom ∧
    node.GetRecentBlockhash .finalized = .ok tx.RecentBlockhash ∧
    Step.newTransaction
        [Instruction.transfer amount (lib.PublicKeyOf accountFrom) accountTo]
        tx.RecentBlockhash (lib.PublicKeyOf accountFrom) ∈
      (transferTokens lib node accountFrom accountTo amount w).2.stepsSince w := by
  cases hb : node.GetBalance (lib.PublicKeyOf accountFrom) .finalized with
  | error e =>
    simp [transferTokens, getAccountBalance, hb, World.call, World.stepsSince] at hsub
  | ok b =>
    by_cases hlt : b < amount
    · simp [transferTokens, getAccountBalance, hb, hlt, World.call, World.stepsSince] at hsub
    · cases hh : node.GetRecentBlockhash .finalized with
      | error e =>
        simp [transferTokens, getAccountBalance, hb, hlt, hh, World.call,
          World.stepsSince] at hsub
      | ok blockhash =>
        cases hn : lib.NewTransactionErr
            [Instruction.transfer amount (lib.PublicKeyOf accountFrom) accountTo] blockhash
            (lib.PublicKeyOf accountFrom) with
        | some e =>
          simp [transferTokens, getAccountBalance, hb, hlt, hh, NewTransaction, hn,
            World.call, World.stepsSince] at hsub
        | none =>
          cases hs : lib.SignWith
              ⟨[Instruction.transfer amount (lib.PublicKeyOf accountFrom) accountTo],
                blockhash, lib.PublicKeyOf accountFrom, []⟩ (signer lib accountFrom) with
          | error e =>
            simp [transferTokens, getAccountBalance, hb, hlt, hh, NewTransaction, hn,
              Transaction.Sign, hs, World.call, World.stepsSince] at hsub
          | ok sigs =>
            cases hsend : node.SendTransaction
                ⟨[Instruction.transfer amount (lib.PublicKeyOf accountFrom) accountTo],
                  blockhash, lib.PublicKeyOf accountFrom, sigs⟩ with
            | error e =>
              simp [transferTokens, getAccountBalance, hb, hlt, hh, NewTransaction, hn,
                Transaction.Sign, hs, hsend, World.call, World.stepsSince] at hsub ⊢
              subst hsub
              simp
            | ok sig =>
              simp [transferTokens, getAccountBalance, hb, hlt, hh, NewTransaction, hn,
                Transaction.Sign, hs, hsend, World.call, World.println,
                World.stepsSince] at hsub ⊢
              subst hsub
              simp

/-- C4 at amount 1000 and balance 5000: the submitted transaction is the one-instruction
transfer of 1000 from the sender to the recipient, paid by the sender, on blockhash 7. -/
theorem transferTokens_submitted_transaction_witness :
    Step.sendTransaction
        ⟨[Instruction.transfer 1000 ⟨[1, 2]⟩ ⟨[3, 4]⟩], ⟨[7]⟩, ⟨[1, 2]⟩, [⟨[1, 2]⟩]⟩ ∈
      (transferTokens sampleLib (sampleNode 5000) sampleFrom sampleTo 1000
        World.empty).2.stepsSince World.empty ∧
    (sampleNode 5000).GetRecentBlockhash .finalized = .ok ⟨[7]⟩ :=
  ⟨by decide,
   (transferTokens_submitted_transaction sampleLib (sampleNode 5000) sampleFrom sampleTo 1000
      World.empty ⟨[Instruction.transfer 1000 ⟨[1, 2]⟩ ⟨[3, 4]⟩], ⟨[7]⟩, ⟨[1, 2]⟩, [⟨[1, 2]⟩]⟩
      (by decide)).2.2.2.1⟩

/-! ## C5: a failing balance query -/

/-- C5: `getAccountBalance` returns the failure of the remote balance query (its message,
behind the context "failed to get account balance: ") and otherwise returns the queried
balance unchanged; when the query fails, `transferTokens` fails with an error and the
balance query is the only step it performs, so neither a finality fetch nor a submission
is attempted. -/
theorem balance_query_failure (lib : Lib) (node : Node) (accountFrom : PrivateKey)
    (accountTo : PublicKey) (amount : Nat) (w : World) (e : String)
    (hbal : node.GetBalance (lib.PublicKeyOf accountFrom) .finalized = .error e) :
    (getAccountBalance node (lib.PublicKeyOf accountFrom) w).1 =
      .error ("failed to get account balance: " ++ e) ∧
    (∀ (account : PublicKey) (v : Nat), node.GetBalance account .finalized = .ok v →
      (getAccountBalance node account w).1 = .ok v) ∧
    (transferTokens lib node accountFrom accountTo amount w).1 =
      some ("failed to get account balance: " ++ ("failed to get account balance: " ++ e)) ∧
    (transferTokens lib node accountFrom accountTo amount w).2.stepsSince w =
      [Step.getBalance (lib.PublicKeyOf accountFrom) .finalized] ∧
    Remote.finalityFetch ∉
      remoteCalls ((transferTokens lib node accountFrom accountTo amount w).2.stepsSince w) ∧
    Remote.submit ∉
      remoteCalls ((transferTokens lib node accountFrom accountTo amount w).2.stepsSince w) := by
  refine ⟨?_, ?_, ?_⟩
  · simp [getAccountBalance, hbal]
  · intro account v hv
    simp [getAccountBalance, hv]
  · simp [transferTokens, getAccountBalance, hbal, World.call, World.stepsSince, remoteCalls,
      Step.remote]

/-- C5 on a node that refuses the connection: the error of `transferTokens` carries the
message of the query, and the balance query is the only remote call. -/
theorem balance_query_failure_witness :
    (transferTokens sampleLib downNode sampleFrom sampleTo 1000 World.empty).1 =
      some "failed to get account balance: failed to get account balance: connection refused" ∧
    (transferTokens sampleLib downNode sampleFrom sampleTo 1000 World.empty).2.stepsSince
      World.empty = [Step.getBalance ⟨[1, 2]⟩ .finalized] := by
  have h := balance_query_failure sampleLib downNode sampleFrom sampleTo 1000 World.empty
    "connection refused" rfl
  exact ⟨h.2.2.1.trans (by decide), h.2.2.2.1⟩

/-! ## C6: the signer resolver -/

/-- C6: the resolver built in `transferTokens` returns the sender's private key if and only
if the requested public key equals the sender's public key, and returns no key for every
other public key; so whenever every required signer is the sender, as in the
single-signer transaction built here, the resolver supplies a key for each of them. -/
theorem signer_resolves_sender_only (lib : Lib) (accountFrom : PrivateKey) :
    (∀ key : PublicKey,
      signer lib accountFrom key = some accountFrom ↔ key = lib.PublicKeyOf accountFrom) ∧
    (∀ key : PublicKey,
      key ≠ lib.PublicKeyOf accountFrom ↔ signer lib accountFrom key = none) ∧
    (∀ required : List PublicKey, (∀ key ∈ required, key = lib.PublicKeyOf accountFrom) →
      ∀ key ∈ required, signer lib accountFrom key = some accountFrom) := by
  have key_iff : ∀ key : PublicKey,
      signer lib accountFrom key = some accountFrom ↔ key = lib.PublicKeyOf accountFrom := by
    intro key
    by_cases h : lib.PublicKeyOf accountFrom = key
    · simp [signer, PublicKey.Equals, h]
    · have h2 : ¬ key = lib.PublicKeyOf accountFrom := fun h3 => h h3.symm
      simp [signer, PublicKey.Equals, h, h2]
  refine ⟨key_iff, ?_, ?_⟩
  · intro key
    by_cases h : lib.PublicKeyOf accountFrom = key
    · simp [signer, PublicKey.Equals, h]
    · have h2 : ¬ key = lib.PublicKeyOf accountFrom := fun h3 => h h3.symm
      simp [signer, PublicKey.Equals, h, h2]
  · intro required hreq key hkey
    exact (key_iff key).2 (hreq key hkey)

/-- C6 on the sample sender: its own public key resolves to its private key, the
recipient's key resolves to nothing. -/
theorem signer_resolves_sender_only_witness :
    signer sampleLib sampleFrom ⟨[1, 2]⟩ = some sampleFrom ∧
    signer sampleLib sampleFrom sampleTo = none :=
  ⟨((signer_resolves_sender_only sampleLib sampleFrom).1 ⟨[1, 2]⟩).2 rfl,
   ((signer_resolves_sender_only sampleLib sampleFrom).2.1 sampleTo).1 (by decide)⟩

/-! ## C9: no retries -/

/-- C9: for every behaviour of the library and the remote node, the remote calls made by one
call of `transferTokens` form an initial segment of balance query, finality fetch, submit;
no call is made twice; the calls end at the first remote call that fails, or at the failed
balance comparison, build or signing; and `transferTokens` returns `nil` if and only if all
three calls were made and all three succeeded. -/
theorem transferTokens_no_retry (lib : Lib) (node : Node) (accountFrom : PrivateKey)
    (accountTo : PublicKey) (amount : Nat) (w : World) :
    transferCalls lib node accountFrom accountTo amount w <+:
      [Remote.balanceQuery, Remote.finalityFetch, Remote.submit] ∧
    (transferCalls lib node accountFrom accountTo amount w).Nodup ∧
    ((transferTokens lib node accountFrom accountTo amount w).1 = none ↔
      transferCalls lib node accountFrom accountTo amount w =
        [Remote.balanceQuery, Remote.finalityFetch, Remote.submit] ∧
      (∃ b, node.GetBalance (lib.PublicKeyOf accountFrom) .finalized = .ok b) ∧
      (∃ h, node.GetRecentBlockhash .finalized = .ok h) ∧
      (∃ tx sig, Step.sendTransaction tx ∈
          (transferTokens lib node accountFrom accountTo amount w).2.stepsSince w ∧
        node.SendTransaction tx = .ok sig)) ∧
    (∀ e, node.GetBalance (lib.PublicKeyOf accountFrom) .finalized = .error e →
      transferCalls lib node accountFrom accountTo amount w = [Remote.balanceQuery]) ∧
    (∀ b, node.GetBalance (lib.PublicKeyOf accountFrom) .finalized = .ok b → b < amount →
      transferCalls lib node accountFrom accountTo amount w = [Remote.balanceQuery]) ∧
    (∀ b e, node.GetBalance (lib.PublicKeyOf accountFrom) .finalized = .ok b → amount ≤ b →
      node.GetRecentBlockhash .finalized = .error e →
      transferCalls lib node accountFrom accountTo amount w =
        [Remote.balanceQuery, Remote.finalityFetch]) ∧
    (∀ b h e, node.GetBalance (lib.PublicKeyOf accountFrom) .finalized = .ok b → amount ≤ b →
      node.GetRecentBlockhash .finalized = .ok h →
      NewTransaction lib [Instruction.transfer amount (lib.PublicKeyOf accountFrom) accountTo]
        h (lib.PublicKeyOf accountFrom) = .error e →
      transferCalls lib node accountFrom accountTo amount w =
        [Remote.balanceQuery, Remote.finalityFetch]) ∧
    (∀ b h tx e, node.GetBalance (lib.PublicKeyOf accountFrom) .finalized = .ok b →
      amount ≤ b → node.GetRecentBlockhash .finalized = .ok h →
      NewTransaction lib [Instruction.transfer amount (lib.PublicKeyOf accountFrom) accountTo]
        h (lib.PublicKeyOf accountFrom) = .ok tx →
      tx.Sign lib (signer lib accountFrom) = .error e →
      transferCalls lib node accountFrom accountTo amount w =
        [Remote.balanceQuery, Remote.finalityFetch]) ∧
    (∀ b h tx signed e, node.GetBalance (lib.PublicKeyOf accountFrom) .finalized = .ok b →
      amount ≤ b → node.GetRecentBlockhash .finalized = .ok h →
      NewTransaction lib [Instruction.transfer amount (lib.PublicKeyOf accountFrom) accountTo]
        h (lib.PublicKeyOf accountFrom) = .ok tx →
      tx.Sign lib (signer lib accountFrom) = .ok signed →
      node.SendTransaction signed = .error e →
      transferCalls lib node accountFrom accountTo amount w =
          [Remote.balanceQuery, Remote.finalityFetch, Remote.submit] ∧
        (transferTokens lib node accountFrom accountTo amount w).1 ≠ none) := by
  rcases transferTokens_cases lib node accountFrom accountTo amount w with
    ⟨e, hb, hr⟩ | ⟨b, hb, hlt, hr⟩ | ⟨b, e, hb, hle, hh, hr⟩ | ⟨b, h, e, hb, hle, hh, hn, hr⟩ |
    ⟨b, h, tx, e, hb, hle, hh, hn, hs, hr⟩ | ⟨b, h, tx, signed, e, hb, hle, hh, hn, hs, hsend, hr⟩ |
    ⟨b, h, tx, signed, sig, hb, hle, hh, hn, hs, hsend, hr⟩
  all_goals
    refine ⟨?_, ?_, ?_, ?_, ?_, ?_, ?_, ?_, ?_⟩
    all_goals
      intros
      simp_all [transferCalls, stepsSince_append, remoteCalls, Step.remote]
      try omega

/-! ## C10: errors carry the failing step -/

/-- C10: every error that `transferTokens` returns for a failing step (balance query,
finality fetch, transaction build, signing, submission) is the context of that step
followed by the message of the underlying error, unchanged; the only other error is the
insufficient-balance error; and the contexts exclude one another, so the message
determines the step that failed. -/
theorem transferTokens_error_context (lib : Lib) (node : Node) (accountFrom : PrivateKey)
    (accountTo : PublicKey) (amount : Nat) (w : World) :
    (∀ e, node.GetBalance (lib.PublicKeyOf accountFrom) .finalized = .error e →
      (transferTokens lib node accountFrom accountTo amount w).1 =
        some (stepContext .balanceQuery ++ e)) ∧
    (∀ b e, node.GetBalance (lib.PublicKeyOf accountFrom) .finalized = .ok b → amount ≤ b →
      node.GetRecentBlockhash .finalized = .error e →
      (transferTokens lib node accountFrom accountTo amount w).1 =
        some (stepContext .finalityFetch ++ e)) ∧
    (∀ b h e, node.GetBalance (lib.PublicKeyOf accountFrom) .finalized = .ok b → amount ≤ b →
      node.GetRecentBlockhash .finalized = .ok h →
      NewTransaction lib [Instruction.transfer amount (lib.PublicKeyOf accountFrom) accountTo]
        h (lib.PublicKeyOf accountFrom) = .error e →
      (transferTokens lib node accountFrom accountTo amount w).1 =
        some (stepContext .build ++ e)) ∧
    (∀ b h tx e, node.GetBalance (lib.PublicKeyOf accountFrom) .finalized = .ok b →
      amount ≤ b → node.GetRecentBlockhash .finalized = .ok h →
      NewTransaction lib [Instruction.transfer amount (lib.PublicKeyOf accountFrom) accountTo]
        h (lib.PublicKeyOf accountFrom) = .ok tx →
      tx.Sign lib (signer lib accountFrom) = .error e →
      (transferTokens lib node accountFrom accountTo amount w).1 =
        some (stepContext .signing ++ e)) ∧
    (∀ b h tx signed e, node.GetBalance (lib.PublicKeyOf accountFrom) .finalized = .ok b →
      amount ≤ b → node.GetRecentBlockhash .finalized = .ok h →
      NewTransaction lib [Instruction.transfer amount (lib.PublicKeyOf accountFrom) accountTo]
        h (lib.PublicKeyOf accountFrom) = .ok tx →
      tx.Sign lib (signer lib accountFrom) = .ok signed →
      node.SendTransaction signed = .error e →
      (transferTokens lib node accountFrom accountTo amount w).1 =
        some (stepContext .submission ++ e)) ∧
    (∀ m, (transferTokens lib node accountFrom accountTo amount w).1 = some m →
      (∃ k e, m = stepContext k ++ e) ∨
      (∃ b, node.GetBalance (lib.PublicKeyOf accountFrom) .finalized = .ok b ∧ b < amount ∧
        m = "insufficient balance. Account balance: " ++ toString b ++
          ", Required amount: " ++ toString amount)) ∧
    (∀ k k' e e', stepContext k ++ e = stepContext k' ++ e' → k = k') ∧
    (∀ k e (b a : Nat), stepContext k ++ e ≠
      "insufficient balance. Account balance: " ++ toString b ++
        ", Required amount: " ++ toString a) := by
  refine ⟨?_, ?_, ?_, ?_, ?_, ?_, ?_, ?_⟩
  · intro e hb
    simp [transferTokens, getAccountBalance, hb, balance_context_twice]
  · intro b e hb hle hh
    have hlt : ¬ b < amount := by omega
    simp [transferTokens, getAccountBalance, hb, hlt, hh, stepContext]
  · intro b h e hb hle hh hn
    have hlt : ¬ b < amount := by omega
    simp [transferTokens, getAccountBalance, hb, hlt, hh, hn, stepContext]
  · intro b h tx e hb hle hh hn hs
    have hlt : ¬ b < amount := by omega
    simp [transferTokens, getAccountBalance, hb, hlt, hh, hn, hs, stepContext]
  · intro b h tx signed e hb hle hh hn hs hsend
    have hlt : ¬ b < amount := by omega
    simp [transferTokens, getAccountBalance, hb, hlt, hh, hn, hs, hsend, stepContext]
  · intro m hm
    rcases transferTokens_cases lib node accountFrom accountTo amount w with
      ⟨e, _, hr⟩ | ⟨b, hb, hlt, hr⟩ | ⟨b, e, _, _, _, hr⟩ | ⟨b, h, e, _, _, _, _, hr⟩ |
      ⟨b, h, tx, e, _, _, _, _, _, hr⟩ | ⟨b, h, tx, signed, e, _, _, _, _, _, _, hr⟩ |
      ⟨b, h, tx, signed, sig, _, _, _, _, _, _, hr⟩
    · rw [hr] at hm
      exact Or.inl ⟨.balanceQuery, e, by
        rw [← balance_context_twice]; exact (Option.some.inj hm).symm⟩
    · rw [hr] at hm
      exact Or.inr ⟨b, hb, hlt, (Option.some.inj hm).symm⟩
    · rw [hr] at hm
      exact Or.inl ⟨.finalityFetch, e, (Option.some.inj hm).symm⟩
    · rw [hr] at hm
      exact Or.inl ⟨.build, e, (Option.some.inj hm).symm⟩
    · rw [hr] at hm
      exact Or.inl ⟨.signing, e, (Option.some.inj hm).symm⟩
    · rw [hr] at hm
      exact Or.inl ⟨.submission, e, (Option.some.inj hm).symm⟩
    · rw [hr] at hm
      exact absurd hm (by simp)
  · intro k k' e e' heq
    cases k <;> cases k' <;>
      first
        | rfl
        | exact absurd heq
            (append_ne_of_take_ne _ _ e e' 15 (by decide) (by decide) (by decide))
  · intro k e b a heq
    rw [String.append_assoc, String.append_assoc] at heq
    cases k <;>
      exact absurd heq
        (append_ne_of_take_ne _ _ _ _ 15 (by decide) (by decide) (by decide))

/-! ## C7: a zero amount -/

/-- C7 as stated fails: with amount 0 and a private key that does not decode, the run
ends in the panic of `MustPrivateKeyFromBase58`, not in the validation error, and the
validator is never reached; the client construction and the key decoding run before it. -/
theorem main_zero_amount_counterexample :
    zeroConfigBadKey.TransferConfig.Amount = 0 ∧
    (main ⟨none, .ok zeroConfigBadKey⟩ sampleLib (fun _ => sampleNode 5000)).1 =
      Exit.panic "zero length string" ∧
    (main ⟨none, .ok zeroConfigBadKey⟩ sampleLib (fun _ => sampleNode 5000)).1 ≠
      Exit.fatal "invalid configuration: amount must be greater than zero" ∧
    Step.validateConfig ∉
      (main ⟨none, .ok zeroConfigBadKey⟩ sampleLib (fun _ => sampleNode 5000)).2.steps ∧
    (main ⟨none, .ok zeroConfigBadKey⟩ sampleLib (fun _ => sampleNode 5000)).2.steps =
      [Step.openConfig, Step.decodeConfig, Step.newClient "http://node",
        Step.parsePrivateKey ""] := by
  refine ⟨rfl, ?_, ?_, ?_, ?_⟩ <;> decide

/-- C7, amended: for every configuration whose amount is 0 the run makes no remote call and
prints nothing; and when the private key and the recipient address of the configuration
both decode, the run fails at the validator with the validation error, the steps before
the validator being the configuration loading (open, decode), the construction of the
client and the decoding of the two keys. -/
theorem main_zero_amount (files : Files) (lib : Lib) (net : String → Node) (config : Config)
    (hopen : files.OpenErr = none) (hdec : files.Decode = .ok config)
    (hamt : config.TransferConfig.Amount = 0) :
    remoteCalls (main files lib net).2.steps = [] ∧
    (main files lib net).2.stdout = [] ∧
    (∀ accountFrom accountTo,
      lib.PrivateKeyFromBase58 config.TransferConfig.PrivateKey = .ok accountFrom →
      lib.PublicKeyFromBase58 config.TransferConfig.RecipientPK = .ok accountTo →
      (main files lib net).1 =
        Exit.fatal "invalid configuration: amount must be greater than zero" ∧
      (main files lib net).2.steps =
        [Step.openConfig, Step.decodeConfig, Step.newClient config.TransferConfig.RPCURL,
          Step.parsePrivateKey config.TransferConfig.PrivateKey,
          Step.parsePublicKey config.TransferConfig.RecipientPK, Step.validateConfig]) := by
  have hv : validateConfig config = some "amount must be greater than zero" := by
    simp [validateConfig, hamt]
  cases hp : lib.PrivateKeyFromBase58 config.TransferConfig.PrivateKey with
  | error e =>
    simp [main, hopen, hdec, hp, World.call, World.empty, remoteCalls, Step.remote]
  | ok accountFrom =>
    cases hq : lib.PublicKeyFromBase58 config.TransferConfig.RecipientPK with
    | error e =>
      simp [main, hopen, hdec, hp, hq, World.call, World.empty, remoteCalls, Step.remote]
    | ok accountTo =>
      simp [main, hopen, hdec, hp, hq, hv, World.call, World.empty, remoteCalls, Step.remote]

/-- C7 amended, on the configuration with amount 0 and well formed keys: the run ends in
the validation error and makes no remote call. -/
theorem main_zero_amount_witness :
    (main ⟨none, .ok zeroConfig⟩ sampleLib (fun _ => sampleNode 5000)).1 =
      Exit.fatal "invalid configuration: amount must be greater than zero" ∧
    remoteCalls (main ⟨none, .ok zeroConfig⟩ sampleLib (fun _ => sampleNode 5000)).2.steps =
      [] := by
  have h := main_zero_amount ⟨none, .ok zeroConfig⟩ sampleLib (fun _ => sampleNode 5000)
    zeroConfig rfl rfl rfl
  exact ⟨(h.2.2 ⟨[107]⟩ ⟨[97, 98, 99]⟩ rfl rfl).1, h.1⟩

/-! ## C8: the confirmation output -/

/-- C8: on a successful run the standard output of the program is exactly two lines, a line
carrying the identifier that the submission returned ("Transaction Signature: " followed by
it) and the line "Transaction successful"; on every run that does not succeed nothing is
printed on standard output, and a failing call of `transferTokens` itself prints nothing. -/
theorem main_output (files : Files) (lib : Lib) (net : String → Node) :
    ((main files lib net).1 = Exit.success →
      ∃ config tx sig, files.Decode = .ok config ∧
        Step.sendTransaction tx ∈ (main files lib net).2.steps ∧
        (net config.TransferConfig.RPCURL).SendTransaction tx = .ok sig ∧
        (main files lib net).2.stdout =
          ["Transaction Signature: " ++ lib.SignatureString sig, "Transaction successful"]) ∧
    ((main files lib net).1 ≠ Exit.success → (main files lib net).2.stdout = []) ∧
    (∀ (node : Node) (accountFrom : PrivateKey) (accountTo : PublicKey) (amount : Nat)
        (w : World),
      (transferTokens lib node accountFrom accountTo amount w).1 ≠ none →
      (transferTokens lib node accountFrom accountTo amount w).2.printedSince w = []) := by
  refine ⟨?_, ?_, ?_⟩
  · intro hsucc
    cases ho : files.OpenErr with
    | some e => simp [main, ho] at hsucc
    | none =>
      cases hd : files.Decode with
      | error e => simp [main, ho, hd] at hsucc
      | ok config =>
        cases hp : lib.PrivateKeyFromBase58 config.TransferConfig.PrivateKey with
        | error e => simp [main, ho, hd, hp] at hsucc
        | ok accountFrom =>
          cases hq : lib.PublicKeyFromBase58 config.TransferConfig.RecipientPK with
          | error e => simp [main, ho, hd, hp, hq] at hsucc
          | ok accountTo =>
            cases hv : validateConfig config with
            | some e => simp [main, ho, hd, hp, hq, hv] at hsucc
            | none =>
              simp only [main, ho, hd, hp, hq, hv] at hsucc ⊢
              rcases transferTokens_cases lib (net config.TransferConfig.RPCURL) accountFrom
                  accountTo config.TransferConfig.Amount
                  ((((((World.empty.call .openConfig).call .decodeConfig).call
                    (.newClient config.TransferConfig.RPCURL)).call
                    (.parsePrivateKey config.TransferConfig.PrivateKey)).call
                    (.parsePublicKey config.TransferConfig.RecipientPK)).call
                    .validateConfig) with
                ⟨e, _, hr⟩ | ⟨b, _, _, hr⟩ | ⟨b, e, _, _, _, hr⟩ | ⟨b, h, e, _, _, _, _, hr⟩ |
                ⟨b, h, tx, e, _, _, _, _, _, hr⟩ | ⟨b, h, tx, signed, e, _, _, _, _, _, _, hr⟩ |
                ⟨b, h, tx, signed, sig, _, _, _, _, _, hsend, hr⟩
              all_goals rw [hr] at hsucc ⊢
              all_goals simp at hsucc
              exact ⟨config, signed, sig, rfl, by simp [World.println, World.call, World.empty],
                hsend, by simp [World.println, World.call, World.empty]⟩
  · intro hfail
    cases ho : files.OpenErr with
    | some e => simp [main, ho, World.call, World.empty]
    | none =>
      cases hd : files.Decode with
      | error e => simp [main, ho, hd, World.call, World.empty]
      | ok config =>
        cases hp : lib.PrivateKeyFromBase58 config.TransferConfig.PrivateKey with
        | error e => simp [main, ho, hd, hp, World.call, World.empty]
        | ok accountFrom =>
          cases hq : lib.PublicKeyFromBase58 config.TransferConfig.RecipientPK with
          | error e => simp [main, ho, hd, hp, hq, World.call, World.empty]
          | ok accountTo =>
            cases hv : validateConfig config with
            | some e => simp [main, ho, hd, hp, hq, hv, World.call, World.empty]
            | none =>
              simp only [main, ho, hd, hp, hq, hv] at hfail ⊢
              rcases transferTokens_cases lib (net config.TransferConfig.RPCURL) accountFrom
                  accountTo config.TransferConfig.Amount
                  ((((((World.empty.call .openConfig).call .decodeConfig).call
                    (.newClient config.TransferConfig.RPCURL)).call
                    (.parsePrivateKey config.TransferConfig.PrivateKey)).call
                    (.parsePublicKey config.TransferConfig.RecipientPK)).call
                    .validateConfig) with
                ⟨e, _, hr⟩ | ⟨b, _, _, hr⟩ | ⟨b, e, _, _, _, hr⟩ | ⟨b, h, e, _, _, _, _, hr⟩ |
                ⟨b, h, tx, e, _, _, _, _, _, hr⟩ | ⟨b, h, tx, signed, e, _, _, _, _, _, _, hr⟩ |
                ⟨b, h, tx, signed, sig, _, _, _, _, _, hsend, hr⟩
              all_goals rw [hr] at hfail ⊢
              all_goals simp [World.call, World.empty] at hfail ⊢
  · intro node accountFrom accountTo amount w hfail
    rcases transferTokens_cases lib node accountFrom accountTo amount w with
      ⟨e, _, hr⟩ | ⟨b, _, _, hr⟩ | ⟨b, e, _, _, _, hr⟩ | ⟨b, h, e, _, _, _, _, hr⟩ |
      ⟨b, h, tx, e, _, _, _, _, _, hr⟩ | ⟨b, h, tx, signed, e, _, _, _, _, _, _, hr⟩ |
      ⟨b, h, tx, signed, sig, _, _, _, _, _, hsend, hr⟩
    all_goals rw [hr] at hfail ⊢
    all_goals simp [printedSince_same] at hfail ⊢

/-- C8 on the sample configuration (amount 1000, balance 5000): the run succeeds and its
standard output is the two confirmation lines. -/
theorem main_output_witness :
    (main ⟨none, .ok sampleConfig⟩ sampleLib (fun _ => sampleNode 5000)).1 = Exit.success ∧
    (main ⟨none, .ok sampleConfig⟩ sampleLib (fun _ => sampleNode 5000)).2.stdout =
      ["Transaction Signature: sig2", "Transaction successful"] ∧
    ∃ config tx sig, (Files.mk none (.ok sampleConfig)).Decode = .ok config ∧
      Step.sendTransaction tx ∈
        (main ⟨none, .ok sampleConfig⟩ sampleLib (fun _ => sampleNode 5000)).2.steps ∧
      (sampleNode 5000).SendTransaction tx = .ok sig ∧
      (main ⟨none, .ok sampleConfig⟩ sampleLib (fun _ => sampleNode 5000)).2.stdout =
        ["Transaction Signature: " ++ sampleLib.SignatureString sig,
          "Transaction successful"] :=
  ⟨by decide, by decide,
   (main_output ⟨none, .ok sampleConfig⟩ sampleLib (fun _ => sampleNode 5000)).1 (by decide)⟩

end SolTransfer
